import Mathlib

/-!
Shallow embedding of the usage-plan governance handlers
(`config_compliance`, `configuration_enforcement`, `usage_plan_recovery`)
of the API-Gateway usage-plans sample, together with theorems settling the
specification claims about them.

Conventions of the embedding:
* Python dictionary values that may be numbers or strings are modelled by
  `PyVal`; Python's `int(x)` coercion is `PyVal.toIntCoe`, which fails
  (raises) exactly when a string does not parse as an integer.
* An absent dictionary key is `Option.none`; `d.get(k, 0)` followed by
  `int(...)` is `getIntOr0`.
* Exceptions are modelled by `Except Unit`; a Python `try/except` block is
  a `match` on the `Except` value.
* The DynamoDB table is modelled as `String → Option DbPlan` (key-value
  view) for the recovery handler, and as a scan list `DbEnv.items` where
  the source scans the table.
* External-call outcomes that depend on the environment (AWS API success
  or failure) are oracle parameters (`ApiEnv.getPlanFails`, `assocOk`,
  `updateOk`, `deleteOk`, `createdId`).
* Human-readable violation/annotation message bodies are modelled
  structurally (constructors carrying the interpolated data) where the
  exact text does not matter; the truncation function is modelled on the
  character list of the message.
-/

/-- A loosely-typed Python value: an integer (also covering DynamoDB
integral `Decimal`s) or a string. -/
inductive PyVal where
  | int (n : Int)
  | str (s : String)
deriving Repr, DecidableEq

/-- Decimal-digit accumulation over a character list; `none` on any
non-digit character. -/
def decDigits (l : List Char) : Option Nat :=
  l.foldl (fun acc c =>
    match acc with
    | none => none
    | some n => if c.isDigit then some (n * 10 + (c.toNat - '0'.toNat)) else none)
    (some 0)

/-- Integer parsing of a string (an optional leading minus followed by at
least one decimal digit), modelling which strings Python's `int(...)`
accepts. -/
def pyIntOfString (s : String) : Option Int :=
  match s.data with
  | [] => none
  | '-' :: rest =>
    if rest.isEmpty then none
    else (decDigits rest).map (fun n => -(n : Int))
  | l => (decDigits l).map (fun n => (n : Int))

/-- Python `int(v)`: succeeds on a number, succeeds on a string only when
it parses as an integer, otherwise raises. -/
def PyVal.toIntCoe : PyVal → Except Unit Int
  | .int n => .ok n
  | .str s =>
    match pyIntOfString s with
    | some n => .ok n
    | none => .error ()

/-- `int(d.get(key, 0))`: an absent field coerces to `0`; a present field
is coerced by `int(...)`, which may raise. -/
def getIntOr0 : Option PyVal → Except Unit Int
  | none => .ok 0
  | some v => v.toIntCoe

/-- A governance record (one DynamoDB item of the usage-plans table).
Fields other than the primary key `plan_id` may be absent. -/
structure DbPlan where
  plan_id : String
  name : Option String := none
  tier : Option String := none
  rate_limit : Option PyVal := none
  burst_limit : Option PyVal := none
  quota_limit : Option PyVal := none
  quota_period : Option String := none
  lifecycle_state : Option String := none
  stages : Option (List String) := none
  description : Option String := none
  deleted : Bool := false
  recreated_from : Option String := none
  recreated_as : Option String := none
  created_at : Option String := none
  deleted_at : Option String := none
  recreated_at : Option String := none
deriving Repr, DecidableEq

/-- One entry of a live usage plan's `apiStages` list. -/
structure ApiStage where
  apiId : String
  stage : String
deriving Repr, DecidableEq

/-- A live API Gateway usage plan, with throttle/quota fields flattened
(`p.get('throttle', {}).get('rateLimit', 0)` reads `throttle_rateLimit`
with an absent dict or key both modelled as `none`). -/
structure ApiPlan where
  id : String
  name : String
  throttle_rateLimit : Option PyVal := none
  throttle_burstLimit : Option PyVal := none
  quota_limit : Option PyVal := none
  quota_period : Option String := none
  apiStages : List ApiStage := []
deriving Repr, DecidableEq

/-- The live-state side: the usage plans returned by `get_usage_plans`,
plus an oracle listing the plan ids for which `get_usage_plan` raises an
infrastructure error, and an oracle for `get_stage` existence checks. -/
structure ApiEnv where
  plans : List ApiPlan
  getPlanFails : List String := []
  stageExists : String → String → Bool := fun _ _ => false

/-- The desired-state side as seen by a table scan. -/
structure DbEnv where
  items : List DbPlan

/-- `apigateway.get_usage_plan(usagePlanId=pid)`: raises when the plan is
absent from the account or when the oracle says the call fails. -/
def getUsagePlan (env : ApiEnv) (pid : String) : Except Unit ApiPlan :=
  if pid ∈ env.getPlanFails then .error ()
  else
    match env.plans.find? (fun p => p.id == pid) with
    | some p => .ok p
    | none => .error ()

/-- Python `s.split(sep)` for a single-character separator, structurally
on the character list (empty segments preserved, result never empty). -/
def splitOnChar (sep : Char) : List Char → List (List Char)
  | [] => [[]]
  | c :: rest =>
    let r := splitOnChar sep rest
    if c = sep then [] :: r
    else
      match r with
      | h :: t => (c :: h) :: t
      | [] => [[c]]

/-- `s.split('/')` as a list of strings. -/
def pySplit (s : String) (sep : Char) : List String :=
  (splitOnChar sep s.data).map String.mk

/-- `truncate_annotation(annotation, max_length)` on the character list of
the message: unchanged when within the limit, otherwise the first
`max_length - 3` characters followed by `...`. -/
def truncate_annot (l : List Char) (maxLength : Nat) : List Char :=
  if l.length ≤ maxLength then l
  else l.take (maxLength - 3) ++ ['.', '.', '.']

/-- `truncate_annotation` at its default `max_length=256`, on `String`. -/
def truncS (s : String) : String :=
  String.mk (truncate_annot s.data 256)

/-- The inline triple comparison
`int(db.get('rate_limit',0)) == int(api_throttle.get('rateLimit',0)) and
... burst ... and ... quota ...` with Python's left-to-right evaluation
and short-circuiting; raises when a reached coercion raises. -/
def tripleMatchE (db : DbPlan) (api : ApiPlan) : Except Unit Bool := do
  let dr ← getIntOr0 db.rate_limit
  let ar ← getIntOr0 api.throttle_rateLimit
  if dr ≠ ar then return false
  let dbu ← getIntOr0 db.burst_limit
  let abu ← getIntOr0 api.throttle_burstLimit
  if dbu ≠ abu then return false
  let dq ← getIntOr0 db.quota_limit
  let aq ← getIntOr0 api.quota_limit
  return dq == aq

/-- `plans_match_by_config(db_plan, api_plan)`: the triple comparison with
any exception caught and turned into `False`. -/
def plans_match_by_config (db : DbPlan) (api : ApiPlan) : Bool :=
  match tripleMatchE db api with
  | .ok b => b
  | .error _ => false

/-- Insertion into a Python dict modelled as an ordered association list:
a duplicate key keeps its first position but takes the last value. -/
def dictInsert (d : List (String × String)) (k v : String) :
    List (String × String) :=
  if d.any (fun kv => kv.1 == k) then
    d.map (fun kv => if kv.1 == k then (k, v) else kv)
  else d ++ [(k, v)]

/-- The dict comprehension `{plan['name']: plan['id'] for plan in items}`
of `evaluate_deleted_usage_plans`. -/
def apiPlansDict (plans : List ApiPlan) : List (String × String) :=
  plans.foldl (fun d p => dictInsert d p.name p.id) []

/-- The inner scan of `evaluate_deleted_usage_plans`: for each dict entry,
`get_usage_plan` is attempted and `plans_match_by_config` checked; any
exception on one entry is swallowed (`except: continue`) and the scan
moves on; the scan stops at the first match. -/
def innerScanFound (api : ApiEnv) (r : DbPlan)
    (d : List (String × String)) : Bool :=
  d.any (fun kv =>
    match getUsagePlan api kv.2 with
    | .ok p => plans_match_by_config r p
    | .error _ => false)

/-- Classification of one AWS Config evaluation. -/
inductive Compliance where
  | compliant
  | nonCompliant
  | notApplicable
deriving Repr, DecidableEq

/-- One evaluation submitted to AWS Config. -/
structure Evaluation where
  resType : String
  resId : String
  compliance : Compliance
  annot : String
  timestamp : String
deriving Repr, DecidableEq

/-- `evaluate_deleted_usage_plans()`: one NON_COMPLIANT evaluation per
non-deleted governance record whose `plan_id` is not among the live plan
names and that no live plan matches by configuration. Records marked
`deleted` are skipped outright. -/
def evaluate_deleted_usage_plans (api : ApiEnv) (db : DbEnv) :
    List Evaluation :=
  let d := apiPlansDict api.plans
  db.items.filterMap (fun r =>
    if r.deleted then none
    else if d.any (fun kv => kv.1 == r.plan_id) then none
    else if innerScanFound api r d then none
    else some {
      resType := "AWS::ApiGateway::UsagePlan",
      resId := "missing-" ++ r.plan_id,
      compliance := .nonCompliant,
      annot := truncS ("Usage plan " ++ r.plan_id ++
        " exists in DynamoDB but not in API Gateway"),
      timestamp := "2024-01-01T00:00:00.000Z" })

/-- The configuration-similarity scan of `find_api_gateway_usage_plan_id`:
first live plan whose (rate, burst, quota) triple equals the record's;
a coercion exception aborts the scan (it is raised, not swallowed). -/
def configScan (db_plan : DbPlan) : List ApiPlan → Except Unit (Option String)
  | [] => .ok none
  | p :: rest => do
    let b ← tripleMatchE db_plan p
    if b then return some p.id else configScan db_plan rest

/-- `find_api_gateway_usage_plan_id(db_plan_id)`: name tier first, then
the configuration-similarity tier over the governance record fetched by
key; any exception escaping to the outer handler yields `None`. -/
def find_api_gateway_usage_plan_id (api : ApiEnv) (db : DbEnv)
    (db_plan_id : String) : Option String :=
  match api.plans.find? (fun p => p.name == db_plan_id) with
  | some p => some p.id
  | none =>
    match db.items.find? (fun r => r.plan_id == db_plan_id) with
    | none => none
    | some db_plan =>
      match configScan db_plan api.plans with
      | .ok r => r
      | .error _ => none

/-- The canonical stage-reference string
`arn:aws:apigateway:{region}::/restapis/{api_id}/stages/{stage_name}`. -/
def mkStageArn (region apiId stage : String) : String :=
  "arn:aws:apigateway:" ++ region ++ "::/restapis/" ++ apiId ++
    "/stages/" ++ stage

/-- A violation entry of `validate_plan_configuration`, carrying the data
interpolated into the source's message string. -/
inductive Violation where
  | rate (dbv apiv : Option PyVal)
  | burst (dbv apiv : Option PyVal)
  | quota (dbv apiv : Option PyVal)
  | stagesNotInDb (count : Nat)
  | stagesNotInApi (count : Nat)
  | planFetchError (planId : String)
deriving Repr, DecidableEq

/-- `validate_plan_configuration(db_plan, api_plan)`: the three numeric
comparisons in order (each coercion may raise), then the two set-difference
checks on the canonical stage-reference strings. -/
def validate_plan_configuration (region : String) (db : DbPlan)
    (api : ApiPlan) : Except Unit (List Violation) := do
  let dr ← getIntOr0 db.rate_limit
  let ar ← getIntOr0 api.throttle_rateLimit
  let v1 : List Violation :=
    if dr ≠ ar then [.rate db.rate_limit api.throttle_rateLimit] else []
  let dbu ← getIntOr0 db.burst_limit
  let abu ← getIntOr0 api.throttle_burstLimit
  let v2 : List Violation :=
    if dbu ≠ abu then [.burst db.burst_limit api.throttle_burstLimit] else []
  let dq ← getIntOr0 db.quota_limit
  let aq ← getIntOr0 api.quota_limit
  let v3 : List Violation :=
    if dq ≠ aq then [.quota db.quota_limit api.quota_limit] else []
  let apiArns := api.apiStages.map (fun s => mkStageArn region s.apiId s.stage)
  let dbStages := db.stages.getD []
  let apiSet := apiArns.dedup
  let dbSet := dbStages.dedup
  let v4 : List Violation :=
    if apiSet.all (fun a => dbSet.contains a) then []
    else [.stagesNotInDb (apiSet.filter (fun a => ¬ dbSet.contains a)).length]
  let v5 : List Violation :=
    if dbSet.all (fun a => apiSet.contains a) then []
    else [.stagesNotInApi (dbSet.filter (fun a => ¬ apiSet.contains a)).length]
  return v1 ++ v2 ++ v3 ++ v4 ++ v5

/-- `verify_stage_exists(stage_arn)`: splits the ARN on `/`, reads
`parts[-3]` and `parts[-1]` (an out-of-range negative index raises and is
caught, giving `False`), and asks the gateway whether the stage exists. -/
def verify_stage_exists (api : ApiEnv) (arn : String) : Bool :=
  let parts := pySplit arn '/' 
  if parts.length ≥ 3 then
    api.stageExists (parts.getD (parts.length - 3) "")
      (parts.getD (parts.length - 1) "")
  else false

/-- `find_usage_plan_for_stage(stage_arn)`: first scanned record whose
(truthy) `stages` list contains the ARN. -/
def find_usage_plan_for_stage (db : DbEnv) (stage_arn : String) :
    Option DbPlan :=
  db.items.find? (fun item =>
    let stages := item.stages.getD []
    !stages.isEmpty && stages.contains stage_arn)

/-- The configuration-similarity scan inside the UsagePlan branch of
`evaluate_resource_compliance` (db-side direction): first governance
record whose triple equals the live plan's; a coercion raise aborts. -/
def dbConfigScan (api_plan : ApiPlan) :
    List DbPlan → Except Unit (Option DbPlan)
  | [] => .ok none
  | item :: rest => do
    let b ← tripleMatchE item api_plan
    if b then return some item else dbConfigScan api_plan rest

/-- A Config rule configuration item (the fields the handler reads). -/
structure ConfigurationItem where
  resourceType : String
  resourceId : String
  itemStatus : String := "OK"
  captureTime : String := "t0"
deriving Repr, DecidableEq

/-- `create_evaluation_result(...)`: annotation passed through truncation,
ordering timestamp taken from the configuration item. -/
def create_evaluation_result (rt ri : String) (c : Compliance)
    (annot : String) (ci : ConfigurationItem) : Evaluation :=
  { resType := rt, resId := ri, compliance := c, annot := truncS annot,
    timestamp := ci.captureTime }

/-- Result of one compliance evaluation, together with the list of
`delete_usage_plan` calls the evaluation attempted. -/
structure EvalOutcome where
  result : Evaluation
  deletes : List String
deriving Repr, DecidableEq

/-- The `VIOLATIONS: n issues found` summary result. -/
def mkViolationsResult (ci : ConfigurationItem) (n : Nat) : Evaluation :=
  create_evaluation_result ci.resourceType ci.resourceId .nonCompliant
    ("VIOLATIONS: " ++ toString n ++ " issues found") ci

/-- `evaluate_resource_compliance(configuration_item)` for both Stage and
UsagePlan resources. `deleteOk` is the oracle for the success of the
orphan `delete_usage_plan` call. Exception text interpolations are
modelled by the fixed prefix of the source message. -/
def evaluate_resource_compliance (region : String) (api : ApiEnv)
    (db : DbEnv) (deleteOk : String → Bool) (ci : ConfigurationItem) :
    EvalOutcome :=
  if ci.resourceType == "AWS::ApiGateway::Stage" then
    let stage_arn := ci.resourceId
    if ¬ verify_stage_exists api stage_arn then
      ⟨create_evaluation_result ci.resourceType ci.resourceId .notApplicable
        "Stage does not exist" ci, []⟩
    else
      let parts := pySplit stage_arn '/' 
      let api_id := parts.getD (parts.length - 3) ""
      let stage_name := parts.getD (parts.length - 1) ""
      let api_plan_id := (api.plans.find? (fun p =>
        p.apiStages.any (fun s => s.apiId == api_id && s.stage == stage_name))).map
          (fun p => p.id)
      match find_usage_plan_for_stage db stage_arn, api_plan_id with
      | none, some apid =>
        ⟨create_evaluation_result ci.resourceType ci.resourceId .nonCompliant
          ("Stage associated with plan " ++ apid ++
            " in API Gateway but not in DynamoDB") ci, []⟩
      | none, none =>
        ⟨create_evaluation_result ci.resourceType ci.resourceId .nonCompliant
          "Stage not mapped to any usage plan" ci, []⟩
      | some dbp, none =>
        ⟨create_evaluation_result ci.resourceType ci.resourceId .nonCompliant
          ("Stage mapped to plan " ++ dbp.plan_id ++
            " in DynamoDB but not in API Gateway") ci, []⟩
      | some dbp, some apid =>
        match getUsagePlan api apid with
        | .error _ => ⟨mkViolationsResult ci 1, []⟩
        | .ok apiPlan =>
          match validate_plan_configuration region dbp apiPlan with
          | .error _ =>
            ⟨create_evaluation_result ci.resourceType ci.resourceId
              .nonCompliant "Error evaluating resource" ci, []⟩
          | .ok vs =>
            if vs.isEmpty then
              ⟨create_evaluation_result ci.resourceType ci.resourceId
                .compliant "Resource complies with DynamoDB metadata" ci, []⟩
            else ⟨mkViolationsResult ci vs.length, []⟩
  else if ci.resourceType == "AWS::ApiGateway::UsagePlan" then
    let upid := ci.resourceId
    match getUsagePlan api upid with
    | .error _ =>
      ⟨create_evaluation_result ci.resourceType ci.resourceId .nonCompliant
        "Error getting API Gateway usage plan" ci, []⟩
    | .ok apiPlan =>
      match db.items.find? (fun r => r.plan_id == apiPlan.name) with
      | some dbp =>
        match validate_plan_configuration region dbp apiPlan with
        | .error _ =>
          ⟨create_evaluation_result ci.resourceType ci.resourceId
            .nonCompliant "Error getting API Gateway usage plan" ci, []⟩
        | .ok vs =>
          if vs.isEmpty then
            ⟨create_evaluation_result ci.resourceType ci.resourceId
              .compliant "Resource complies with DynamoDB metadata" ci, []⟩
          else ⟨mkViolationsResult ci vs.length, []⟩
      | none =>
        match dbConfigScan apiPlan db.items with
        | .error _ =>
          ⟨create_evaluation_result ci.resourceType ci.resourceId
            .nonCompliant "Error getting API Gateway usage plan" ci, []⟩
        | .ok (some dbp) =>
          match validate_plan_configuration region dbp apiPlan with
          | .error _ =>
            ⟨create_evaluation_result ci.resourceType ci.resourceId
              .nonCompliant "Error getting API Gateway usage plan" ci, []⟩
          | .ok vs =>
            if vs.isEmpty then
              ⟨create_evaluation_result ci.resourceType ci.resourceId
                .compliant "Resource complies with DynamoDB metadata" ci, []⟩
            else ⟨mkViolationsResult ci vs.length, []⟩
        | .ok none =>
          if deleteOk upid then
            ⟨create_evaluation_result ci.resourceType ci.resourceId
              .nonCompliant ("REMEDIATED: Deleted orphaned plan " ++
                apiPlan.name) ci, [upid]⟩
          else
            ⟨create_evaluation_result ci.resourceType ci.resourceId
              .nonCompliant "Usage plan not found in DynamoDB (auto-delete failed)"
              ci, [upid]⟩
  else
    ⟨create_evaluation_result ci.resourceType ci.resourceId .compliant
      "Resource complies with DynamoDB metadata" ci, []⟩

/-- The `lambda_handler` classification dispatch of the compliance rule:
deleted/unrecorded items are skipped (no evaluation), supported types are
evaluated, anything else is NOT_APPLICABLE. -/
def handler_classify (region : String) (api : ApiEnv) (db : DbEnv)
    (deleteOk : String → Bool) (ci : ConfigurationItem) :
    Option EvalOutcome :=
  if ci.itemStatus == "ResourceDeleted" || ci.itemStatus == "ResourceNotRecorded" then
    none
  else if ci.resourceType == "AWS::ApiGateway::Stage" ||
      ci.resourceType == "AWS::ApiGateway::UsagePlan" then
    some (evaluate_resource_compliance region api db deleteOk ci)
  else
    some ⟨{ resType := ci.resourceType, resId := ci.resourceId,
            compliance := .notApplicable,
            annot := "Resource type " ++ ci.resourceType ++ " not supported",
            timestamp := ci.captureTime }, []⟩

/-- One entry of a `patchOperations` list. -/
structure PatchOp where
  op : String
  path : String
  value : String
deriving Repr, DecidableEq

/-- Outcome tag of `enforce_configuration_for_plan`. -/
inductive EnforceAction where
  | unmanaged
  | readError
  | corrected (n : Nat)
  | correctionFailed
  | noDrift
deriving Repr, DecidableEq

/-- Result of `enforce_configuration_for_plan`: HTTP-style status, outcome
tag, the `delete_usage_plan` calls attempted, and the
`update_usage_plan` calls made (each carrying its `patchOperations`). -/
structure EnforceResult where
  status : Nat
  action : EnforceAction
  deletes : List String
  updates : List (List PatchOp)
deriving Repr, DecidableEq

/-- `int(record[key])` on a mandatory field: raises (`KeyError`) when the
field is absent and on a failed coercion. -/
def getReqInt : Option PyVal → Except Unit Int
  | none => .error ()
  | some v => v.toIntCoe

/-- Python `==` between a loosely-typed current value and an `int`
expected value: numeric equality for numbers, never equal for strings. -/
def pyEqInt (v : PyVal) (m : Int) : Bool :=
  match v with
  | .int n => n == m
  | .str _ => false

/-- The `corrections_needed` list of `enforce_configuration_for_plan`:
one `replace` patch per mismatched attribute, in source order (rate,
burst, quota), each comparing the raw current value (absent → `0`)
against the coerced expected value. -/
def driftOps (cfg : ApiPlan) (er eb eqq : Int) : List PatchOp :=
  (if ¬ pyEqInt (cfg.throttle_rateLimit.getD (.int 0)) er then
    [⟨"replace", "/throttle/rateLimit", toString er⟩] else []) ++
  (if ¬ pyEqInt (cfg.throttle_burstLimit.getD (.int 0)) eb then
    [⟨"replace", "/throttle/burstLimit", toString eb⟩] else []) ++
  (if ¬ pyEqInt (cfg.quota_limit.getD (.int 0)) eqq then
    [⟨"replace", "/quota/limit", toString eqq⟩] else [])

/-- `enforce_configuration_for_plan(plan_id)`.
With no governance record under the direct key, the live plan is fetched
and deleted (both failures swallowed) and 404 returned. Otherwise the
live configuration is read (failure → 500), the three limit comparisons
build `corrections_needed` (`driftOps`), and a non-empty list is applied
by ONE `update_usage_plan` call whose success is the `updateOk` oracle.
A `.error` value models an exception escaping the handler (absent or
non-coercible mandatory governance field). -/
def enforce_configuration_for_plan (api : ApiEnv) (db : DbEnv)
    (updateOk : Bool) (plan_id : String) : Except Unit EnforceResult :=
  match db.items.find? (fun r => r.plan_id == plan_id) with
  | none =>
    match getUsagePlan api plan_id with
    | .ok _ => .ok ⟨404, .unmanaged, [plan_id], []⟩
    | .error _ => .ok ⟨404, .unmanaged, [], []⟩
  | some grec =>
    match getUsagePlan api plan_id with
    | .error _ => .ok ⟨500, .readError, [], []⟩
    | .ok cfg => do
      let expectedRate ← getReqInt grec.rate_limit
      let expectedBurst ← getReqInt grec.burst_limit
      let expectedQuota ← getReqInt grec.quota_limit
      let ops := driftOps cfg expectedRate expectedBurst expectedQuota
      if ops.isEmpty then return ⟨200, .noDrift, [], []⟩
      else if updateOk then return ⟨200, .corrected ops.length, [], [ops]⟩
      else return ⟨500, .correctionFailed, [], [ops]⟩

/-- Stage-ARN parsing in `recreate_usage_plan`: split on `/`, require
`len(parts) >= 4`, read `parts[2]` and `parts[4]`; the `IndexError` on a
4-part string is caught by the per-ARN handler, so a pair is produced
exactly when there are at least 5 parts. -/
def parse_stage_arn (arn : String) : Option (String × String) :=
  let parts := pySplit arn '/' 
  if parts.length ≥ 5 then some (parts.getD 2 "", parts.getD 4 "")
  else none

/-- Oracles for the recovery run: the id returned by `create_usage_plan`
(`none` models the call raising) and per-stage success of the
`update_usage_plan` add-stage call. -/
structure RecoveryEnv where
  createdId : Option String
  assocOk : String → String → Bool

/-- Result of `recreate_usage_plan`: the new id (when creation worked),
the stages whose association was attempted, and those that succeeded. -/
structure RecreateOutcome where
  newPlanId : Option String
  attempted : List (String × String)
  associated : List (String × String)
deriving Repr, DecidableEq

/-- Building `create_params['throttle']` can raise while coercing
`float(metadata['rate_limit'])` / `int(metadata['burst_limit'])`; the
block runs only when both fields are present. Numeric strings are
modelled as integer-parsable. -/
def throttleParamsE (meta : DbPlan) : Except Unit Unit :=
  match meta.rate_limit, meta.burst_limit with
  | some r, some b => do
    let _ ← r.toIntCoe
    let _ ← b.toIntCoe
    return ()
  | _, _ => .ok ()

/-- Building `create_params['quota']` likewise coerces
`int(metadata['quota_limit'])` when both quota fields are present. -/
def quotaParamsE (meta : DbPlan) : Except Unit Unit :=
  match meta.quota_limit, meta.quota_period with
  | some q, some _ => do
    let _ ← q.toIntCoe
    return ()
  | _, _ => .ok ()

/-- `recreate_usage_plan(metadata)`: build the create parameters (a raise
there, or a failing `create_usage_plan`, yields `None`), then attempt
every parseable stage association independently — a failure on one stage
is caught and the loop continues. The new id is returned regardless of
how many associations succeeded. -/
def recreate_usage_plan (meta : DbPlan) (env : RecoveryEnv) :
    RecreateOutcome :=
  match throttleParamsE meta, quotaParamsE meta with
  | .ok _, .ok _ =>
    match env.createdId with
    | none => ⟨none, [], []⟩
    | some nid =>
      let stages := (meta.stages.getD []).filterMap parse_stage_arn
      ⟨some nid, stages, stages.filter (fun s => env.assocOk s.1 s.2)⟩
  | _, _ => ⟨none, [], []⟩

/-- The all-fields-absent governance record created when `update_item`
targets a missing key (DynamoDB creates the item). -/
def emptyDbPlan (pid : String) : DbPlan := { plan_id := pid }

/-- `table.put_item(Item=item)`: overwrite-by-key on the key-value view
of the table. -/
def put_item (t : String → Option DbPlan) (item : DbPlan) :
    String → Option DbPlan :=
  fun k => if k == item.plan_id then some item else t k

/-- `update_dynamodb_record(old_plan_id, new_plan_id, metadata)`:
writes a full copy of the old metadata under the new id with
`recreated_from`/`recreated_at` set (all other fields, `stages`
included, copied verbatim), then updates the old item in place with
`deleted=true, recreated_as=new, deleted_at=now`. Store writes are
modelled as succeeding. -/
def update_dynamodb_record (old_plan_id new_plan_id : String)
    (meta : DbPlan) (now : String) (t : String → Option DbPlan) :
    String → Option DbPlan :=
  let newMeta := { meta with
                   plan_id := new_plan_id
                   recreated_from := some old_plan_id
                   recreated_at := some now }
  let t1 := put_item t newMeta
  fun k =>
    if k == old_plan_id then
      let base := (t1 old_plan_id).getD (emptyDbPlan old_plan_id)
      some { base with
             deleted := true
             recreated_as := some new_plan_id
             deleted_at := some now }
    else t1 k

/-- Outcome tag of the recovery `lambda_handler`. -/
inductive RecoveryAction where
  | ignored
  | noPlanId
  | noMetadata
  | recreateFailed (oldId : String)
  | recovered (oldId newId : String)
deriving Repr, DecidableEq

/-- The fields the recovery handler reads from the CloudTrail event. -/
structure RecoveryEvent where
  eventName : Option String := none
  usagePlanId : Option String := none

/-- The recovery `lambda_handler`: only `DeleteUsagePlan` events with a
(truthy) plan id are processed; the metadata is fetched by key with NO
check of the `deleted` flag; on successful recreation the table is
rewritten by `update_dynamodb_record`, otherwise it is untouched. -/
def recovery_handler (ev : RecoveryEvent) (t : String → Option DbPlan)
    (env : RecoveryEnv) (now : String) :
    RecoveryAction × (String → Option DbPlan) :=
  if ev.eventName ≠ some "DeleteUsagePlan" then (.ignored, t)
  else
    match ev.usagePlanId with
    | none => (.noPlanId, t)
    | some pid =>
      if pid == "" then (.noPlanId, t)
      else
        match t pid with
        | none => (.noMetadata, t)
        | some meta =>
          let rc := recreate_usage_plan meta env
          match rc.newPlanId with
          | none => (.recreateFailed pid, t)
          | some nid =>
            if nid == "" then (.recreateFailed pid, t)
            else (.recovered pid nid,
                  update_dynamodb_record pid nid meta now t)

/-! Concrete fixtures used by witnesses and counterexamples. -/

/-- A drifted live plan: rate 25, burst 100, quota 500. -/
def cfgC1 : ApiPlan :=
  { id := "u1"
    name := "Basic"
    throttle_rateLimit := some (.int 25)
    throttle_burstLimit := some (.int 100)
    quota_limit := some (.int 500) }

/-- The governance record for `cfgC1`: rate 50, burst 100, quota 1000. -/
def grecC1 : DbPlan :=
  { plan_id := "u1"
    rate_limit := some (.int 50)
    burst_limit := some (.int 100)
    quota_limit := some (.int 1000) }

/-- Live-state environment holding only `cfgC1`. -/
def apiEnvC1 : ApiEnv := { plans := [cfgC1] }

/-- Desired-state environment holding only `grecC1`. -/
def dbEnvC1 : DbEnv := { items := [grecC1] }

/-- The rate-limit patch expected for the `cfgC1`/`grecC1` drift. -/
def opRateC1 : PatchOp := ⟨"replace", "/throttle/rateLimit", "50"⟩

/-- The quota-limit patch expected for the `cfgC1`/`grecC1` drift. -/
def opQuotaC1 : PatchOp := ⟨"replace", "/quota/limit", "1000"⟩

/-- Stage-set agreement between a governance record and a live plan: the
live `apiStages` rendered as canonical ARNs and the record's `stages`
list contain the same elements. -/
def stageSetEq (region : String) (db : DbPlan) (api : ApiPlan) : Prop :=
  (∀ a ∈ api.apiStages.map (fun s => mkStageArn region s.apiId s.stage),
    a ∈ db.stages.getD []) ∧
  (∀ a ∈ db.stages.getD [],
    a ∈ api.apiStages.map (fun s => mkStageArn region s.apiId s.stage))

/-- A canonical stage ARN for api `a1`, stage `dev`. -/
def arnDevC2 : String := "arn:aws:apigateway:us-east-1::/restapis/a1/stages/dev"

/-- A canonical stage ARN for api `a1`, stage `prod`. -/
def arnProdC2 : String := "arn:aws:apigateway:us-east-1::/restapis/a1/stages/prod"

/-- A governance record with two desired stages. -/
def metaC2 : DbPlan :=
  { plan_id := "p1"
    name := some "Basic"
    stages := some [arnDevC2, arnProdC2] }

/-- A one-record table holding `metaC2` under key `p1`. -/
def tableC2 : String → Option DbPlan :=
  fun k => if k == "p1" then some metaC2 else none

/-- Recovery oracles: creation returns `p9`; associating the `prod`
stage fails, associating `dev` succeeds. -/
def envC2 : RecoveryEnv := { createdId := some "p9", assocOk := fun _ s => s == "dev" }

/-- A `DeleteUsagePlan` CloudTrail event naming `p1`. -/
def rEvC2 : RecoveryEvent := { eventName := some "DeleteUsagePlan", usagePlanId := some "p1" }

/-- A soft-deleted historical record (already superseded by `p2`). -/
def metaDelC3 : DbPlan :=
  { plan_id := "p1"
    deleted := true
    recreated_as := some "p2" }

/-- A one-record table holding the soft-deleted `metaDelC3`. -/
def tableC3 : String → Option DbPlan :=
  fun k => if k == "p1" then some metaDelC3 else none

/-- Recovery oracles for the C3 scenario: creation returns `p3`. -/
def envC3 : RecoveryEnv := { createdId := some "p3", assocOk := fun _ _ => true }

/-- A `DeleteUsagePlan` event naming the soft-deleted record `p1`. -/
def rEvC3 : RecoveryEvent :=
  { eventName := some "DeleteUsagePlan", usagePlanId := some "p1" }

/-- Recovery oracles where `create_usage_plan` fails. -/
def envFailC6 : RecoveryEnv := { createdId := none, assocOk := fun _ _ => true }

/-- The lineage invariant: every deleted record carries a forward
pointer that resolves to a record pointing back at it. -/
def lineageInv (t : String → Option DbPlan) : Prop :=
  ∀ k r, t k = some r → r.deleted = true →
    ∃ nid r2, r.recreated_as = some nid ∧ t nid = some r2 ∧
      r2.recreated_from = some k

/-- A live plan with no governance record under any tier. -/
def apiEnvC7 : ApiEnv := { plans := [{ id := "u2", name := "Orphan" }] }

/-- An empty governance table. -/
def dbEmptyC7 : DbEnv := { items := [] }

/-- Configuration item for the orphan plan `u2`. -/
def ciC7 : ConfigurationItem :=
  { resourceType := "AWS::ApiGateway::UsagePlan", resourceId := "u2" }

/-- Configuration item for the plan `u1`. -/
def ciC7b : ConfigurationItem :=
  { resourceType := "AWS::ApiGateway::UsagePlan", resourceId := "u1" }

/-- A table whose record key equals the live plan's name `Basic`. -/
def dbNameC7 : DbEnv := { items := [{ plan_id := "Basic" }] }

/-- A table whose record matches `cfgC1` by configuration triple only. -/
def dbCfgC7 : DbEnv :=
  { items := [{ plan_id := "other"
                rate_limit := some (.int 25)
                burst_limit := some (.int 100)
                quota_limit := some (.int 500) }] }

/-- A plan whose name does not match the lookup key. -/
def pXC8 : ApiPlan := { id := "X", name := "other" }

/-- A plan whose name matches the lookup key `pid1`. -/
def pAC8 : ApiPlan := { id := "A", name := "pid1" }

/-- A plan whose triple (10, 0, 0) does not match `rC8`. -/
def qC8 : ApiPlan := { id := "Q", name := "n1", throttle_rateLimit := some (.int 10) }

/-- A plan whose triple (50, 0, 0) matches `rC8`. -/
def pPC8 : ApiPlan := { id := "P", name := "n2", throttle_rateLimit := some (.int 50) }

/-- A governance record with rate 50 and no other limits. -/
def rC8 : DbPlan := { plan_id := "pid2", rate_limit := some (.int 50) }

/-- The live plan found by the inner scan after a failing entry. -/
def pGC8 : ApiPlan := { id := "good", name := "G", throttle_rateLimit := some (.int 50) }

/-- Listing for the name-tier witness. -/
def apiName8 : ApiEnv := { plans := [pXC8, pAC8] }

/-- Listing for the configuration-tier witness. -/
def apiCfg8 : ApiEnv := { plans := [qC8, pPC8] }

/-- Table holding only `rC8`. -/
def db8 : DbEnv := { items := [rC8] }

/-- Environment where the lookup of id `bad` raises but `good` exists. -/
def apiScan8 : ApiEnv := { plans := [pGC8], getPlanFails := ["bad"] }

/-- C9: annotation truncation — an input of at most 256 characters is
returned unchanged; a longer input is truncated to exactly 256
characters: the first `max_length - 3 = 253` input characters followed by
the three-character ellipsis marker. -/
theorem C9_truncate (l : List Char) :
    (l.length ≤ 256 → truncate_annot l 256 = l) ∧
    (256 < l.length →
      (truncate_annot l 256).length = 256 ∧
      truncate_annot l 256 = l.take 253 ++ ['.', '.', '.']) := by
  constructor
  · intro h
    simp [truncate_annot, h]
  · intro h
    have h' : ¬ l.length ≤ 256 := by omega
    refine ⟨?_, by simp [truncate_annot, h']⟩
    simp only [truncate_annot, h', if_false, List.length_append, List.length_take]
    simp
    omega

/-- Witness for C9: a 300-character message truncates to exactly 256
characters ending in `...`; a 200-character message is unchanged. -/
theorem C9_truncate_witness :
    (truncate_annot (List.replicate 300 'a') 256).length = 256 ∧
    truncate_annot (List.replicate 300 'a') 256 =
      List.replicate 253 'a' ++ ['.', '.', '.'] ∧
    truncate_annot (List.replicate 200 'a') 256 = List.replicate 200 'a' := by
  have h300 : 256 < (List.replicate 300 'a').length := by
    rw [List.length_replicate]
    omega
  have h200 : (List.replicate 200 'a').length ≤ 256 := by
    rw [List.length_replicate]
    omega
  refine ⟨((C9_truncate _).2 h300).1, ?_, (C9_truncate _).1 h200⟩
  rw [((C9_truncate _).2 h300).2, List.take_replicate]
  norm_num

/-- C10: in the numeric drift comparisons and the
configuration-similarity matcher, an absent rate/burst/quota field on
either side coerces to 0, so a record with no limit fields compares equal
to a live plan with no throttle/quota settings (the matcher returns true
and the validator emits no numeric violations); and the matcher returns
false instead of raising when a value cannot be coerced to an integer. -/
theorem C10_default_zero_and_swallow :
    (∀ db api, db.rate_limit = none → db.burst_limit = none →
      db.quota_limit = none → api.throttle_rateLimit = none →
      api.throttle_burstLimit = none → api.quota_limit = none →
      plans_match_by_config db api = true) ∧
    (∀ region db api, db.rate_limit = none → db.burst_limit = none →
      db.quota_limit = none → api.throttle_rateLimit = none →
      api.throttle_burstLimit = none → api.quota_limit = none →
      ∃ L, validate_plan_configuration region db api = Except.ok L ∧
        ∀ x ∈ L, (∃ n, x = Violation.stagesNotInDb n) ∨
          (∃ n, x = Violation.stagesNotInApi n)) ∧
    (∀ db api s, db.rate_limit = some (PyVal.str s) → pyIntOfString s = none →
      plans_match_by_config db api = false) := by
  refine ⟨?_, ?_, ?_⟩
  · intro db api h1 h2 h3 h4 h5 h6
    simp [plans_match_by_config, tripleMatchE, getIntOr0, h1, h2, h3, h4, h5, h6,
      bind, Except.bind, pure, Except.pure]
  · intro region db api h1 h2 h3 h4 h5 h6
    simp only [validate_plan_configuration, getIntOr0, h1, h2, h3, h4, h5, h6,
      bind, Except.bind, pure, Except.pure]
    simp
    rintro x (⟨-, rfl⟩ | ⟨-, rfl⟩)
    · exact Or.inl ⟨_, rfl⟩
    · exact Or.inr ⟨_, rfl⟩
  · intro db api s hs hparse
    simp [plans_match_by_config, tripleMatchE, getIntOr0, PyVal.toIntCoe, hs, hparse,
      bind, Except.bind, pure, Except.pure]

/-- Witness for C10 at concrete records: a record and a live plan with no
limit fields at all match and draw no numeric violations, and a record
whose rate limit is the non-numeric string `abc` yields a non-match. -/
theorem C10_witness :
    plans_match_by_config { plan_id := "p1" } { id := "u1", name := "Basic" } = true ∧
    (∃ L, validate_plan_configuration "us-east-1" { plan_id := "p1" }
        { id := "u1", name := "Basic" } = Except.ok L ∧
      ∀ x ∈ L, (∃ n, x = Violation.stagesNotInDb n) ∨
        (∃ n, x = Violation.stagesNotInApi n)) ∧
    plans_match_by_config { plan_id := "p2", rate_limit := some (PyVal.str "abc") }
      { id := "u1", name := "Basic" } = false := by
  refine ⟨C10_default_zero_and_swallow.1 _ _ rfl rfl rfl rfl rfl rfl,
    C10_default_zero_and_swallow.2.1 "us-east-1" _ _ rfl rfl rfl rfl rfl rfl,
    C10_default_zero_and_swallow.2.2 _ _ "abc" rfl (by decide)⟩

/-- A guarded singleton list is empty exactly when the guard fails. -/
theorem ite_single_nil_iff (c : Prop) [Decidable c] (x : Violation) :
    ((if c then [x] else []) = []) ↔ ¬ c := by
  split <;> simp_all

/-- A guarded empty list is empty exactly when the guard holds. -/
theorem ite_nil_single_iff (c : Bool) (x : Violation) :
    ((if c then ([] : List Violation) else [x]) = []) ↔ c = true := by
  split <;> simp_all

/-- The deduplicated-subset check is list-membership inclusion. -/
theorem all_dedup_contains_iff (l m : List String) :
    (l.dedup.all (fun a => m.dedup.contains a) = true) ↔ ∀ a ∈ l, a ∈ m := by
  simp [List.all_eq_true, List.mem_dedup]

/-- C4 (amended): when every limit coercion succeeds, the validator
reports no violation exactly when all four comparisons (rate, burst,
quota, stage set) agree, and for an evaluated UsagePlan with a matched
record the classification is COMPLIANT exactly when there is no
violation and NON_COMPLIANT exactly when there is one; an unsupported
resource type is NOT_APPLICABLE, and a Stage that does not exist is
NOT_APPLICABLE — but a UsagePlan whose live resource cannot be fetched
is NON_COMPLIANT, not NOT_APPLICABLE. -/
theorem C4_drift_classification :
    (∀ region db api (dr ar dbu abu dq aq : Int),
      getIntOr0 db.rate_limit = .ok dr →
      getIntOr0 api.throttle_rateLimit = .ok ar →
      getIntOr0 db.burst_limit = .ok dbu →
      getIntOr0 api.throttle_burstLimit = .ok abu →
      getIntOr0 db.quota_limit = .ok dq →
      getIntOr0 api.quota_limit = .ok aq →
      ∃ L, validate_plan_configuration region db api = Except.ok L ∧
        (L = [] ↔ (dr = ar ∧ dbu = abu ∧ dq = aq ∧ stageSetEq region db api))) ∧
    (∀ region api db deleteOk ci apiPlan dbp L,
      ci.resourceType = "AWS::ApiGateway::UsagePlan" →
      getUsagePlan api ci.resourceId = .ok apiPlan →
      db.items.find? (fun r => r.plan_id == apiPlan.name) = some dbp →
      validate_plan_configuration region dbp apiPlan = .ok L →
      ((evaluate_resource_compliance region api db deleteOk ci).result.compliance
        = Compliance.compliant ↔ L = []) ∧
      ((evaluate_resource_compliance region api db deleteOk ci).result.compliance
        = Compliance.nonCompliant ↔ L ≠ [])) ∧
    (∀ region api db deleteOk ci,
      ci.itemStatus ≠ "ResourceDeleted" → ci.itemStatus ≠ "ResourceNotRecorded" →
      ci.resourceType ≠ "AWS::ApiGateway::Stage" →
      ci.resourceType ≠ "AWS::ApiGateway::UsagePlan" →
      ∃ out, handler_classify region api db deleteOk ci = some out ∧
        out.result.compliance = Compliance.notApplicable) ∧
    (∀ region api db deleteOk ci,
      ci.resourceType = "AWS::ApiGateway::Stage" →
      verify_stage_exists api ci.resourceId = false →
      (evaluate_resource_compliance region api db deleteOk ci).result.compliance
        = Compliance.notApplicable) ∧
    (∀ region api db deleteOk ci,
      ci.resourceType = "AWS::ApiGateway::UsagePlan" →
      getUsagePlan api ci.resourceId = .error () →
      (evaluate_resource_compliance region api db deleteOk ci).result.compliance
        = Compliance.nonCompliant) := by
  refine ⟨?_, ?_, ?_, ?_, ?_⟩
  · intro region db api dr ar dbu abu dq aq h1 h2 h3 h4 h5 h6
    simp only [validate_plan_configuration, h1, h2, h3, h4, h5, h6,
      bind, Except.bind, pure, Except.pure]
    refine ⟨_, rfl, ?_⟩
    rw [List.append_eq_nil, List.append_eq_nil, List.append_eq_nil,
      List.append_eq_nil, ite_single_nil_iff, ite_single_nil_iff,
      ite_single_nil_iff, ite_nil_single_iff, ite_nil_single_iff,
      all_dedup_contains_iff, all_dedup_contains_iff]
    unfold stageSetEq
    simp only [ne_eq, not_not]
    tauto
  · intro region api db deleteOk ci apiPlan dbp L hty hget hfind hval
    simp only [evaluate_resource_compliance, hty, hget, hfind, hval]
    simp only [show ("AWS::ApiGateway::UsagePlan" == "AWS::ApiGateway::Stage") = false
        by simp,
      show ("AWS::ApiGateway::UsagePlan" == "AWS::ApiGateway::UsagePlan") = true
        by simp]
    cases L <;> simp [create_evaluation_result, mkViolationsResult]
  · intro region api db deleteOk ci h1 h2 h3 h4
    simp [handler_classify, h1, h2, h3, h4]
  · intro region api db deleteOk ci hty hst
    simp [evaluate_resource_compliance, hty, hst, create_evaluation_result]
  · intro region api db deleteOk ci hty hget
    simp [evaluate_resource_compliance, hty, hget, create_evaluation_result]

/-- Counterexample to C4 as stated: a UsagePlan configuration item whose
live resource does not exist (empty account) is classified
NON_COMPLIANT, not NOT_APPLICABLE. -/
theorem C4_counterexample :
    (evaluate_resource_compliance "us-east-1" { plans := [] } { items := [] }
      (fun _ => true)
      { resourceType := "AWS::ApiGateway::UsagePlan",
        resourceId := "up1" }).result.compliance = Compliance.nonCompliant ∧
    (evaluate_resource_compliance "us-east-1" { plans := [] } { items := [] }
      (fun _ => true)
      { resourceType := "AWS::ApiGateway::UsagePlan",
        resourceId := "up1" }).result.compliance ≠ Compliance.notApplicable := by
  constructor <;> decide

/-- Witness for C4 at concrete inputs: a matching record/plan pair draws
no violations and is COMPLIANT; an unsupported resource type and a
missing Stage are NOT_APPLICABLE; a missing UsagePlan is NON_COMPLIANT. -/
theorem C4_witness :
    (∃ L, validate_plan_configuration "us-east-1"
        { plan_id := "p1", rate_limit := some (.int 50) }
        { id := "u1", name := "Basic",
          throttle_rateLimit := some (.int 50) } = Except.ok L ∧ L = []) ∧
    (evaluate_resource_compliance "us-east-1"
      { plans := [{ id := "u1", name := "p1" }] } { items := [{ plan_id := "p1" }] }
      (fun _ => true)
      { resourceType := "AWS::ApiGateway::UsagePlan",
        resourceId := "u1" }).result.compliance = Compliance.compliant ∧
    (∃ out, handler_classify "us-east-1" { plans := [] } { items := [] }
        (fun _ => true)
        { resourceType := "AWS::Lambda::Function", resourceId := "f1" } = some out ∧
      out.result.compliance = Compliance.notApplicable) ∧
    (evaluate_resource_compliance "us-east-1" { plans := [] } { items := [] }
      (fun _ => true)
      { resourceType := "AWS::ApiGateway::Stage",
        resourceId := "arn:aws:apigateway:us-east-1::/restapis/a1/stages/dev" }).result.compliance
      = Compliance.notApplicable ∧
    (evaluate_resource_compliance "us-east-1" { plans := [] } { items := [] }
      (fun _ => true)
      { resourceType := "AWS::ApiGateway::UsagePlan",
        resourceId := "up9" }).result.compliance = Compliance.nonCompliant := by
  refine ⟨?_, ?_, ?_, ?_, ?_⟩
  · obtain ⟨L, hok, hiff⟩ := C4_drift_classification.1 "us-east-1"
      { plan_id := "p1", rate_limit := some (.int 50) }
      { id := "u1", name := "Basic", throttle_rateLimit := some (.int 50) }
      50 50 0 0 0 0 rfl rfl rfl rfl rfl rfl
    exact ⟨L, hok, hiff.mpr ⟨rfl, rfl, rfl, by simp, by simp⟩⟩
  · exact (C4_drift_classification.2.1 "us-east-1"
      { plans := [{ id := "u1", name := "p1" }] } { items := [{ plan_id := "p1" }] }
      (fun _ => true)
      { resourceType := "AWS::ApiGateway::UsagePlan", resourceId := "u1" }
      { id := "u1", name := "p1" } { plan_id := "p1" } []
      rfl rfl (by decide) rfl).1.mpr rfl
  · exact C4_drift_classification.2.2.1 "us-east-1" { plans := [] } { items := [] }
      (fun _ => true)
      { resourceType := "AWS::Lambda::Function", resourceId := "f1" }
      (by decide) (by decide) (by decide) (by decide)
  · exact C4_drift_classification.2.2.2.1 "us-east-1" { plans := [] } { items := [] }
      (fun _ => true)
      { resourceType := "AWS::ApiGateway::Stage",
        resourceId := "arn:aws:apigateway:us-east-1::/restapis/a1/stages/dev" }
      rfl (by decide)
  · exact C4_drift_classification.2.2.2.2 "us-east-1" { plans := [] } { items := [] }
      (fun _ => true)
      { resourceType := "AWS::ApiGateway::UsagePlan", resourceId := "up9" }
      rfl rfl

/-- C1 (amended): on a managed drifted plan, the enforcement builds one
`replace` patch per mismatched attribute (rate, burst, quota — only the
mismatched ones, never a full overwrite), but applies the whole list as
ONE `update_usage_plan` call: at most one update call is made, success
corrects all listed attributes at once, failure reports one
correction-failure for the whole batch — no per-attribute partial
success exists. -/
theorem C1_targeted_batched (api : ApiEnv) (db : DbEnv) (updateOk : Bool)
    (plan_id : String) (grec : DbPlan) (cfg : ApiPlan) (er eb eqq : Int)
    (hfind : db.items.find? (fun r => r.plan_id == plan_id) = some grec)
    (hget : getUsagePlan api plan_id = .ok cfg)
    (h1 : getReqInt grec.rate_limit = .ok er)
    (h2 : getReqInt grec.burst_limit = .ok eb)
    (h3 : getReqInt grec.quota_limit = .ok eqq) :
    ∃ res, enforce_configuration_for_plan api db updateOk plan_id = .ok res ∧
      res.deletes = [] ∧
      res.updates = (if (driftOps cfg er eb eqq).isEmpty then []
        else [driftOps cfg er eb eqq]) ∧
      res.updates.length ≤ 1 ∧
      (driftOps cfg er eb eqq = [] → res.action = .noDrift ∧ res.status = 200) ∧
      (driftOps cfg er eb eqq ≠ [] → updateOk = true →
        res.action = .corrected (driftOps cfg er eb eqq).length ∧ res.status = 200) ∧
      (driftOps cfg er eb eqq ≠ [] → updateOk = false →
        res.action = .correctionFailed ∧ res.status = 500) := by
  simp only [enforce_configuration_for_plan, hfind, hget, h1, h2, h3,
    bind, Except.bind, pure, Except.pure]
  by_cases hops : driftOps cfg er eb eqq = []
  · simp [hops]
  · have hne : (driftOps cfg er eb eqq).isEmpty = false := by
      simpa [List.isEmpty_iff] using hops
    cases updateOk <;> simp [hne, hops]

/-- Counterexample to C1 as stated: with two drifted attributes and a
failing update call, the enforcement made exactly one update call
carrying both patches (not one independent operation per attribute), and
the whole batch failed together. -/
theorem C1_counterexample :
    enforce_configuration_for_plan apiEnvC1 dbEnvC1 false "u1"
      = Except.ok ⟨500, EnforceAction.correctionFailed, [],
          [[opRateC1, opQuotaC1]]⟩ ∧
    ([[opRateC1, opQuotaC1]] : List (List PatchOp)) ≠
      [[opRateC1], [opQuotaC1]] := by
  exact ⟨rfl, by decide⟩

/-- Witness for C1: at the concrete drifted pair, with the single update
call succeeding, the enforcement corrects exactly the two mismatched
attributes in one call. -/
theorem C1_witness :
    enforce_configuration_for_plan apiEnvC1 dbEnvC1 true "u1"
      = Except.ok ⟨200, EnforceAction.corrected 2, [],
          [[opRateC1, opQuotaC1]]⟩ := by
  obtain ⟨res, hres, hdel, hupd, hlen, hnod, hcor, hfail⟩ :=
    C1_targeted_batched apiEnvC1 dbEnvC1 true "u1" grecC1 cfgC1
      50 100 1000 rfl rfl rfl rfl rfl
  have hops : driftOps cfgC1 50 100 1000 = [opRateC1, opQuotaC1] := by decide
  obtain ⟨hac, hst⟩ := hcor (by rw [hops]; decide) rfl
  rcases res with ⟨st, ac, de, up⟩
  rw [hops] at hupd
  simp only [List.isEmpty_cons, if_false, Bool.false_eq_true] at hupd
  simp only at hac hst hdel
  rw [hres, hst, hac, hdel, hupd, hops]
  rfl

/-- C2 (amended): after successful creation, every parseable desired
stage is attempted independently of the other stages' outcomes (the
attempted list does not depend on the association oracle), the
successfully associated set is the filter of the attempted set by the
oracle — but the new governance record written by
`update_dynamodb_record` carries the ORIGINAL `stages` list copied from
the old metadata, not the successfully associated subset. -/
theorem C2_recreated_stages (meta : DbPlan) (env : RecoveryEnv) (nid : String)
    (hc : env.createdId = some nid)
    (hthr : throttleParamsE meta = .ok ())
    (hq : quotaParamsE meta = .ok ()) :
    (recreate_usage_plan meta env).newPlanId = some nid ∧
    (recreate_usage_plan meta env).attempted
      = (meta.stages.getD []).filterMap parse_stage_arn ∧
    (recreate_usage_plan meta env).associated
      = ((meta.stages.getD []).filterMap parse_stage_arn).filter
          (fun s => env.assocOk s.1 s.2) ∧
    (∀ f, (recreate_usage_plan meta { env with assocOk := f }).attempted
      = (recreate_usage_plan meta env).attempted) ∧
    (∀ old now t, old ≠ nid →
      (update_dynamodb_record old nid meta now t) nid
        = some { meta with
                 plan_id := nid
                 recreated_from := some old
                 recreated_at := some now }) := by
  refine ⟨?_, ?_, ?_, ?_, ?_⟩
  · simp [recreate_usage_plan, hthr, hq, hc]
  · simp [recreate_usage_plan, hthr, hq, hc]
  · simp [recreate_usage_plan, hthr, hq, hc]
  · intro f
    simp [recreate_usage_plan, hthr, hq, hc]
  · intro old now t hne
    have hb : (nid == old) = false := by
      simp [Ne.symm hne]
    simp [update_dynamodb_record, put_item, hb]
    exact fun h => absurd h (Ne.symm hne)

/-- Counterexample to C2 as stated: with stage `prod` failing to
re-associate, only `(a1, dev)` is associated, yet the new record written
under `p9` still lists BOTH stages — not only the one successfully
associated stage. -/
theorem C2_counterexample :
    (recreate_usage_plan metaC2 envC2).associated = [("a1", "dev")] ∧
    ((recovery_handler rEvC2 tableC2 envC2 "T1").2 "p9").map DbPlan.stages
      = some (some [arnDevC2, arnProdC2]) ∧
    (some [arnDevC2, arnProdC2] : Option (List String)) ≠ some [arnDevC2] := by
  refine ⟨by decide, rfl, by decide⟩

/-- Witness for C2 (amended) at the concrete two-stage record: both
stages are attempted, one is associated, and the new record copies the
original stage list. -/
theorem C2_witness :
    (recreate_usage_plan metaC2 envC2).newPlanId = some "p9" ∧
    (recreate_usage_plan metaC2 envC2).attempted = [("a1", "dev"), ("a1", "prod")] ∧
    (recreate_usage_plan metaC2 envC2).associated = [("a1", "dev")] ∧
    (update_dynamodb_record "p1" "p9" metaC2 "T1" tableC2) "p9"
      = some { metaC2 with
               plan_id := "p9"
               recreated_from := some "p1"
               recreated_at := some "T1" } := by
  obtain ⟨h1, h2, h3, h4, h5⟩ :=
    C2_recreated_stages metaC2 envC2 "p9" rfl rfl rfl
  refine ⟨h1, ?_, ?_, h5 "p1" "T1" tableC2 (by decide)⟩
  · rw [h2]
    decide
  · rw [h3]
    decide

/-- A `filterMap` ignores exactly the elements its guard drops: mapping
over the pre-filtered list gives the same output. -/
theorem filterMap_skip_deleted (g : DbPlan → Option Evaluation)
    (hg : ∀ r, r.deleted = true → g r = none) :
    ∀ items : List DbPlan, items.filterMap g
      = (items.filter (fun r => !r.deleted)).filterMap g := by
  intro items
  induction items with
  | nil => rfl
  | cons r rest ih =>
    by_cases hr : r.deleted = true
    · simp [List.filterMap_cons, List.filter_cons, hr, hg r hr, ih]
    · simp only [Bool.not_eq_true] at hr
      simp [List.filterMap_cons, List.filter_cons, hr, ih]

/-- C3 (amended): the periodic compliance evaluation skips soft-deleted
records entirely (its output only depends on the non-deleted records,
and an all-deleted table yields no evaluations) — but the recovery
handler performs NO deleted-flag check: a DeleteUsagePlan event naming a
soft-deleted record's key still recreates a live resource for it, so
repeated triggers are not idempotent no-ops. -/
theorem C3_soft_deleted :
    (∀ api db, evaluate_deleted_usage_plans api db
      = evaluate_deleted_usage_plans api
          { items := db.items.filter (fun r => !r.deleted) }) ∧
    (∀ api db, (∀ r ∈ db.items, r.deleted = true) →
      evaluate_deleted_usage_plans api db = []) ∧
    (∀ t env now pid meta nid,
      t pid = some meta → meta.deleted = true → pid ≠ "" →
      env.createdId = some nid → nid ≠ "" →
      throttleParamsE meta = .ok () → quotaParamsE meta = .ok () →
      (recovery_handler { eventName := some "DeleteUsagePlan"
                          usagePlanId := some pid } t env now).1
        = RecoveryAction.recovered pid nid) := by
  refine ⟨?_, ?_, ?_⟩
  · intro api db
    unfold evaluate_deleted_usage_plans
    exact filterMap_skip_deleted _ (fun r hr => by simp [hr]) db.items
  · intro api db hall
    unfold evaluate_deleted_usage_plans
    rw [List.filterMap_eq_nil_iff]
    intro r hr
    simp [hall r hr]
  · intro t env now pid meta nid hmeta hdel hpid hcreate hnid hthr hq
    have hrc : (recreate_usage_plan meta env).newPlanId = some nid := by
      simp [recreate_usage_plan, hthr, hq, hcreate]
    simp [recovery_handler, hmeta, hpid, hnid, hrc]

/-- Counterexample to C3 as stated: a recovery trigger naming a record
with `deleted=true` is NOT a no-op — the handler recreates a live
resource (`recovered p1 p3`) and mutates the table (a new record appears
under `p3`). -/
theorem C3_counterexample :
    (recovery_handler rEvC3 tableC3 envC3 "T2").1
      = RecoveryAction.recovered "p1" "p3" ∧
    (recovery_handler rEvC3 tableC3 envC3 "T2").2 "p3" ≠ tableC3 "p3" := by
  refine ⟨rfl, by decide⟩

/-- Witness for C3 (amended): the periodic evaluation of an all-deleted
table emits nothing, while the recovery handler still acts on the
soft-deleted record. -/
theorem C3_witness :
    (∀ api, evaluate_deleted_usage_plans api { items := [metaDelC3] } = []) ∧
    (recovery_handler rEvC3 tableC3 envC3 "T2").1
      = RecoveryAction.recovered "p1" "p3" := by
  refine ⟨?_, ?_⟩
  · intro api
    exact C3_soft_deleted.2.1 api { items := [metaDelC3] }
      (by intro r hr; simp at hr; subst hr; rfl)
  · exact C3_soft_deleted.2.2 tableC3 envC3 "T2" "p1" metaDelC3 "p3"
      rfl rfl (by decide) rfl (by decide) rfl rfl

/-- C6: when `recreate_usage_plan` produces no new id (creation failed),
the handler reports the failure and returns the table UNCHANGED — no
desired-state mutation, so a later retry is possible. -/
theorem C6_no_mutation_on_create_failure (ev : RecoveryEvent)
    (t : String → Option DbPlan) (env : RecoveryEnv) (now pid : String)
    (meta : DbPlan)
    (h1 : ev.eventName = some "DeleteUsagePlan")
    (h2 : ev.usagePlanId = some pid) (h3 : pid ≠ "")
    (h4 : t pid = some meta)
    (h5 : (recreate_usage_plan meta env).newPlanId = none) :
    recovery_handler ev t env now = (RecoveryAction.recreateFailed pid, t) := by
  simp [recovery_handler, h1, h2, h3, h4, h5]

/-- Witness for C6: concrete failing creation leaves the table intact. -/
theorem C6_witness :
    recovery_handler rEvC2 tableC2 envFailC6 "T1"
      = (RecoveryAction.recreateFailed "p1", tableC2) := by
  exact C6_no_mutation_on_create_failure rEvC2 tableC2 envFailC6 "T1" "p1"
    metaC2 rfl rfl (by decide) rfl rfl

/-- C5: a successful `update_dynamodb_record` marks the old record
`deleted=true` with `recreated_as` the new key and `deleted_at` set
(leaving `recreated_from` untouched), writes the new record with
`recreated_from` the old key, and preserves the lineage round-trip
invariant for the whole table. -/
theorem C5_lineage_round_trip (t : String → Option DbPlan)
    (old new_id : String) (meta : DbPlan) (now : String)
    (hmeta : t old = some meta)
    (hnotdel : meta.deleted = false)
    (hfresh : t new_id = none)
    (hne : old ≠ new_id)
    (hinv : lineageInv t) :
    (∃ r, update_dynamodb_record old new_id meta now t old = some r ∧
      r.deleted = true ∧ r.recreated_as = some new_id ∧
      r.deleted_at = some now ∧ r.recreated_from = meta.recreated_from) ∧
    (∃ r2, update_dynamodb_record old new_id meta now t new_id = some r2 ∧
      r2.recreated_from = some old ∧ r2.deleted = false) ∧
    lineageInv (update_dynamodb_record old new_id meta now t) := by
  have hbne : (new_id == old) = false := by simp [Ne.symm hne]
  have hbne2 : (old == new_id) = false := by simp [hne]
  have hu_old : update_dynamodb_record old new_id meta now t old
      = some { meta with
               deleted := true
               recreated_as := some new_id
               deleted_at := some now } := by
    simp [update_dynamodb_record, put_item, hbne2, hmeta]
  have hu_new : update_dynamodb_record old new_id meta now t new_id
      = some { meta with
               plan_id := new_id
               recreated_from := some old
               recreated_at := some now } := by
    simp [update_dynamodb_record, put_item, hbne]
    exact fun h => absurd h (Ne.symm hne)
  have hu_other : ∀ k, k ≠ old → k ≠ new_id →
      update_dynamodb_record old new_id meta now t k = t k := by
    intro k hko hkn
    simp [update_dynamodb_record, put_item, hko, hkn]
  refine ⟨⟨_, hu_old, rfl, rfl, rfl, rfl⟩,
    ⟨_, hu_new, rfl, hnotdel⟩, ?_⟩
  intro k r hk hd
  by_cases hko : k = old
  · subst hko
    rw [hu_old] at hk
    have hr := (Option.some.inj hk).symm
    exact ⟨new_id, _, by rw [hr], hu_new, rfl⟩
  · by_cases hkn : k = new_id
    · subst hkn
      rw [hu_new] at hk
      have hr := (Option.some.inj hk).symm
      rw [hr] at hd
      simp [hnotdel] at hd
    · rw [hu_other k hko hkn] at hk
      obtain ⟨nid, r2, hras, hr2, hrf⟩ := hinv k r hk hd
      by_cases hno : nid = old
      · have hr2m : r2 = meta := by
          rw [hno, hmeta] at hr2
          exact (Option.some.inj hr2).symm
        refine ⟨nid, _, hras, by rw [hno]; exact hu_old, ?_⟩
        show meta.recreated_from = some k
        rw [← hr2m]
        exact hrf
      · by_cases hnn : nid = new_id
        · subst hnn
          rw [hfresh] at hr2
          cases hr2
        · exact ⟨nid, r2, hras, by rw [hu_other nid hno hnn]; exact hr2, hrf⟩

/-- Witness for C5 at the concrete one-record table: the old record is
soft-deleted with forward pointer `p9`, the new record points back at
`p1`, and the resulting table satisfies the lineage invariant. -/
theorem C5_witness :
    (∃ r, update_dynamodb_record "p1" "p9" metaC2 "T1" tableC2 "p1" = some r ∧
      r.deleted = true ∧ r.recreated_as = some "p9" ∧
      r.deleted_at = some "T1" ∧ r.recreated_from = metaC2.recreated_from) ∧
    (∃ r2, update_dynamodb_record "p1" "p9" metaC2 "T1" tableC2 "p9" = some r2 ∧
      r2.recreated_from = some "p1" ∧ r2.deleted = false) ∧
    lineageInv (update_dynamodb_record "p1" "p9" metaC2 "T1" tableC2) := by
  refine C5_lineage_round_trip tableC2 "p1" "p9" metaC2 "T1" rfl rfl rfl
    (by decide) ?_
  intro k r hk hd
  by_cases h : k = "p1"
  · subst h
    simp [tableC2] at hk
    rw [← hk] at hd
    simp [metaC2] at hd
  · simp [tableC2, h] at hk

/-- C7 (amended): in the compliance evaluation a live usage plan is
deleted exactly when BOTH the name-keyed record lookup and the
configuration-similarity scan fail (the delete is attempted whether or
not it succeeds, with a NON_COMPLIANT classification); a plan matched by
name-key or by configuration is not deleted there. The enforcement path
deletes exactly when the direct-key lookup finds no record — the direct
key is the only tier it consults. Neither path consults the other's
tiers, so a record matching only by direct key does not protect a plan
from compliance deletion (see the counterexample). -/
theorem C7_unmanaged_deletion :
    (∀ region api db deleteOk ci apiPlan,
      ci.resourceType = "AWS::ApiGateway::UsagePlan" →
      getUsagePlan api ci.resourceId = .ok apiPlan →
      db.items.find? (fun r => r.plan_id == apiPlan.name) = none →
      dbConfigScan apiPlan db.items = .ok none →
      (evaluate_resource_compliance region api db deleteOk ci).deletes
        = [ci.resourceId] ∧
      (evaluate_resource_compliance region api db deleteOk ci).result.compliance
        = Compliance.nonCompliant) ∧
    (∀ region api db deleteOk ci apiPlan dbp,
      ci.resourceType = "AWS::ApiGateway::UsagePlan" →
      getUsagePlan api ci.resourceId = .ok apiPlan →
      db.items.find? (fun r => r.plan_id == apiPlan.name) = some dbp →
      (evaluate_resource_compliance region api db deleteOk ci).deletes = []) ∧
    (∀ region api db deleteOk ci apiPlan dbp,
      ci.resourceType = "AWS::ApiGateway::UsagePlan" →
      getUsagePlan api ci.resourceId = .ok apiPlan →
      db.items.find? (fun r => r.plan_id == apiPlan.name) = none →
      dbConfigScan apiPlan db.items = .ok (some dbp) →
      (evaluate_resource_compliance region api db deleteOk ci).deletes = []) ∧
    (∀ api db updateOk pid cfg,
      db.items.find? (fun r => r.plan_id == pid) = none →
      getUsagePlan api pid = .ok cfg →
      enforce_configuration_for_plan api db updateOk pid
        = .ok ⟨404, .unmanaged, [pid], []⟩) ∧
    (∀ api db updateOk pid grec res,
      db.items.find? (fun r => r.plan_id == pid) = some grec →
      enforce_configuration_for_plan api db updateOk pid = .ok res →
      res.deletes = []) := by
  refine ⟨?_, ?_, ?_, ?_, ?_⟩
  · intro region api db deleteOk ci apiPlan hty hget hfind hscan
    simp only [evaluate_resource_compliance, hty, hget, hfind, hscan]
    simp only [show ("AWS::ApiGateway::UsagePlan" == "AWS::ApiGateway::Stage") = false
        by simp,
      show ("AWS::ApiGateway::UsagePlan" == "AWS::ApiGateway::UsagePlan") = true
        by simp]
    cases hdel : deleteOk ci.resourceId <;>
      simp [hdel, create_evaluation_result]
  · intro region api db deleteOk ci apiPlan dbp hty hget hfind
    simp only [evaluate_resource_compliance, hty, hget, hfind]
    simp only [show ("AWS::ApiGateway::UsagePlan" == "AWS::ApiGateway::Stage") = false
        by simp,
      show ("AWS::ApiGateway::UsagePlan" == "AWS::ApiGateway::UsagePlan") = true
        by simp]
    cases hval : validate_plan_configuration region dbp apiPlan with
    | error e => simp [hval]
    | ok vs => cases vs <;> simp [hval]
  · intro region api db deleteOk ci apiPlan dbp hty hget hfind hscan
    simp only [evaluate_resource_compliance, hty, hget, hfind, hscan]
    simp only [show ("AWS::ApiGateway::UsagePlan" == "AWS::ApiGateway::Stage") = false
        by simp,
      show ("AWS::ApiGateway::UsagePlan" == "AWS::ApiGateway::UsagePlan") = true
        by simp]
    cases hval : validate_plan_configuration region dbp apiPlan with
    | error e => simp [hval]
    | ok vs => cases vs <;> simp [hval]
  · intro api db updateOk pid cfg hfind hget
    simp [enforce_configuration_for_plan, hfind, hget]
  · intro api db updateOk pid grec res hfind hres
    simp only [enforce_configuration_for_plan, hfind] at hres
    cases hget : getUsagePlan api pid with
    | error e =>
      rw [hget] at hres
      cases hres
      rfl
    | ok cfg =>
      rw [hget] at hres
      simp only [bind, Except.bind] at hres
      cases h1 : getReqInt grec.rate_limit with
      | error e1 => simp [h1] at hres
      | ok er =>
        rw [h1] at hres
        cases h2 : getReqInt grec.burst_limit with
        | error e2 => simp [h2] at hres
        | ok eb =>
          rw [h2] at hres
          cases h3 : getReqInt grec.quota_limit with
          | error e3 => simp [h3] at hres
          | ok eqq =>
            rw [h3] at hres
            simp only [pure, Except.pure] at hres
            split at hres
            · cases hres
              rfl
            · split at hres
              · cases hres
                rfl
              · cases hres
                rfl

/-- Counterexample to C7 as stated: the record `grecC1` matches the live
plan `u1` by DIRECT KEY (its table key equals the live id), yet the
compliance evaluation still deletes `u1`, because its name-keyed lookup
and configuration scan both fail on the drifted plan — so "a live
resource that matches some governance record by any tier is never
deleted" is false. -/
theorem C7_counterexample :
    grecC1.plan_id = cfgC1.id ∧
    grecC1 ∈ dbEnvC1.items ∧
    (evaluate_resource_compliance "us-east-1" apiEnvC1 dbEnvC1 (fun _ => true)
      ciC7b).deletes = ["u1"] := by
  refine ⟨rfl, by decide, rfl⟩

/-- Witness for C7 (amended) at concrete inputs: an orphan plan is
deleted and NON_COMPLIANT; name-keyed and configuration matches are not
deleted; enforcement deletes on a direct-key miss and not on a hit. -/
theorem C7_witness :
    (evaluate_resource_compliance "us-east-1" apiEnvC7 dbEmptyC7 (fun _ => true)
      ciC7).deletes = ["u2"] ∧
    (evaluate_resource_compliance "us-east-1" apiEnvC7 dbEmptyC7 (fun _ => true)
      ciC7).result.compliance = Compliance.nonCompliant ∧
    (evaluate_resource_compliance "us-east-1" apiEnvC1 dbNameC7 (fun _ => true)
      ciC7b).deletes = [] ∧
    (evaluate_resource_compliance "us-east-1" apiEnvC1 dbCfgC7 (fun _ => true)
      ciC7b).deletes = [] ∧
    enforce_configuration_for_plan apiEnvC7 dbEmptyC7 true "u2"
      = .ok ⟨404, .unmanaged, ["u2"], []⟩ ∧
    (⟨200, EnforceAction.corrected 2, [],
      [[opRateC1, opQuotaC1]]⟩ : EnforceResult).deletes = [] := by
  refine ⟨?_, ?_, ?_, ?_, ?_, ?_⟩
  · exact (C7_unmanaged_deletion.1 "us-east-1" apiEnvC7 dbEmptyC7 (fun _ => true)
      ciC7 { id := "u2", name := "Orphan" } rfl rfl rfl rfl).1
  · exact (C7_unmanaged_deletion.1 "us-east-1" apiEnvC7 dbEmptyC7 (fun _ => true)
      ciC7 { id := "u2", name := "Orphan" } rfl rfl rfl rfl).2
  · exact C7_unmanaged_deletion.2.1 "us-east-1" apiEnvC1 dbNameC7 (fun _ => true)
      ciC7b cfgC1 { plan_id := "Basic" } rfl rfl rfl
  · exact C7_unmanaged_deletion.2.2.1 "us-east-1" apiEnvC1 dbCfgC7 (fun _ => true)
      ciC7b cfgC1 { plan_id := "other"
                    rate_limit := some (.int 25)
                    burst_limit := some (.int 100)
                    quota_limit := some (.int 500) } rfl rfl rfl rfl
  · exact C7_unmanaged_deletion.2.2.2.1 apiEnvC7 dbEmptyC7 true "u2"
      { id := "u2", name := "Orphan" } rfl rfl
  · exact C7_unmanaged_deletion.2.2.2.2 apiEnvC1 dbEnvC1 true "u1" grecC1
      ⟨200, EnforceAction.corrected 2, [], [[opRateC1, opQuotaC1]]⟩ rfl rfl

/-- The configuration-similarity scan returns the first matching plan:
non-matching prefix entries are passed over, the first plan whose triple
comparison yields true wins. -/
theorem configScan_append_first_match (r : DbPlan) (p : ApiPlan)
    (post : List ApiPlan) (htp : tripleMatchE r p = .ok true) :
    ∀ pre, (∀ q ∈ pre, tripleMatchE r q = .ok false) →
      configScan r (pre ++ p :: post) = .ok (some p.id) := by
  intro pre
  induction pre with
  | nil =>
    intro _
    simp [configScan, htp, bind, Except.bind, pure, Except.pure]
  | cons q pre' ih =>
    intro hall
    have hq : tripleMatchE r q = .ok false := hall q (List.mem_cons_self q pre')
    have ih' := ih (fun x hx => hall x (List.mem_cons_of_mem q hx))
    simp [configScan, hq, bind, Except.bind, ih']

/-- C8: the resolver's tiers apply in order with first success winning —
a name match anywhere in the listing wins (independent of any
configuration matches), the configuration tier accepts the FIRST plan in
listing order whose (rate, burst, quota) triple equals the record's,
per-entry lookup failures in the `evaluate_deleted_usage_plans` scan are
swallowed (a failing prefix entry never prevents a later match), and the
resolver yields no-match when the name tier fails and no record exists
under the key. -/
theorem C8_resolver_waterfall :
    (∀ api db pid pre p post,
      api.plans = pre ++ p :: post →
      (∀ q ∈ pre, q.name ≠ pid) → p.name = pid →
      find_api_gateway_usage_plan_id api db pid = some p.id) ∧
    (∀ api db pid r pre p post,
      (∀ q ∈ api.plans, q.name ≠ pid) →
      db.items.find? (fun x => x.plan_id == pid) = some r →
      api.plans = pre ++ p :: post →
      (∀ q ∈ pre, tripleMatchE r q = .ok false) →
      tripleMatchE r p = .ok true →
      find_api_gateway_usage_plan_id api db pid = some p.id) ∧
    (∀ api r d1 d2 n i p,
      getUsagePlan api i = .ok p →
      plans_match_by_config r p = true →
      innerScanFound api r (d1 ++ (n, i) :: d2) = true) ∧
    (∀ api db pid,
      (∀ q ∈ api.plans, q.name ≠ pid) →
      db.items.find? (fun x => x.plan_id == pid) = none →
      find_api_gateway_usage_plan_id api db pid = none) := by
  refine ⟨?_, ?_, ?_, ?_⟩
  · intro api db pid pre p post happ hpre hp
    have hpren : pre.find? (fun q => q.name == pid) = none := by
      rw [List.find?_eq_none]
      intro q hq
      simp [hpre q hq]
    simp only [find_api_gateway_usage_plan_id, happ, List.find?_append, hpren,
      Option.none_or]
    rw [List.find?_cons_of_pos _ (by simp [hp])]
  · intro api db pid r pre p post hname hfind happ hpres htp
    have hnamen : api.plans.find? (fun q => q.name == pid) = none := by
      rw [List.find?_eq_none]
      intro q hq
      simp [hname q hq]
    rw [happ] at hnamen
    simp only [find_api_gateway_usage_plan_id, happ, hnamen, hfind,
      configScan_append_first_match r p post htp pre hpres]
  · intro api r d1 d2 n i p hget hmatch
    simp [innerScanFound, List.any_append, List.any_cons, hget, hmatch]
  · intro api db pid hname hfind
    have hnamen : api.plans.find? (fun q => q.name == pid) = none := by
      rw [List.find?_eq_none]
      intro q hq
      simp [hname q hq]
    simp [find_api_gateway_usage_plan_id, hnamen, hfind]

/-- Witness for C8 at concrete inputs: name tier wins, configuration
tier picks the first match, a failing entry is swallowed mid-scan, and
no-match is returned only with all tiers failed. -/
theorem C8_witness :
    find_api_gateway_usage_plan_id apiName8 db8 "pid1" = some "A" ∧
    find_api_gateway_usage_plan_id apiCfg8 db8 "pid2" = some "P" ∧
    innerScanFound apiScan8 rC8 [("n", "bad"), ("m", "good")] = true ∧
    find_api_gateway_usage_plan_id apiCfg8 { items := [] } "nope" = none := by
  refine ⟨?_, ?_, ?_, ?_⟩
  · exact C8_resolver_waterfall.1 apiName8 db8 "pid1" [pXC8] pAC8 [] rfl
      (by intro q hq; simp [pXC8] at hq; subst hq; decide) rfl
  · exact C8_resolver_waterfall.2.1 apiCfg8 db8 "pid2" rC8 [qC8] pPC8 []
      (by intro q hq; simp [apiCfg8, qC8, pPC8] at hq
          rcases hq with rfl | rfl <;> decide)
      rfl rfl
      (by intro q hq; simp at hq; subst hq; rfl) rfl
  · exact C8_resolver_waterfall.2.2.1 apiScan8 rC8 [("n", "bad")] [] "m" "good"
      pGC8 rfl rfl
  · exact C8_resolver_waterfall.2.2.2 apiCfg8 { items := [] } "nope"
      (by intro q hq; simp [apiCfg8, qC8, pPC8] at hq
          rcases hq with rfl | rfl <;> decide)
      rfl
